import Mathlib

/-!
Shallow embedding of the grading harness in test-script.py: a unittest class
that loads a student notebook, executes it, rebuilds a globals mapping by
re-executing every code cell, and runs an ordered suite of checks against
that mapping and against the raw cell source text.  Machine-level details
(the notebook execution engine, the Python interpreter and the geospatial
library stack) are modelled as explicit parameters or small oracles, exactly
at the granularity the harness observes them.
-/

/-- Python exceptions distinguished by the harness: setUpClass catches
FileNotFoundError and nothing else, test bodies can raise attribute, key and
type errors, and everything else is carried as text. -/
inductive PyExn where
  | fileNotFound
  | attributeError (msg : String)
  | keyError (msg : String)
  | typeError (msg : String)
  | other (msg : String)
deriving DecidableEq, Repr

/-- Coordinate reference system oracle: its identity (the authority code) and
whether it is a projected (linear-unit) system, which is all the harness ever
asks of a pyproj CRS object. -/
structure CRS where
  code : String
  is_projected : Bool
deriving DecidableEq, Repr

/-- GeoDataFrame oracle: the harness only observes the column names, the row
count (len) and the crs attribute, which geopandas allows to be None. -/
structure GeoDF where
  columns : List String
  nrows : Nat
  crs : Option CRS
deriving DecidableEq, Repr

/-- Python runtime values the checks can encounter in the globals mapping and
in results returned by student functions.  Callables are embedded as Lean
functions from their argument list to a result or a raised exception; the
harness only ever invokes a student callable on geodataframe fixtures, so the
argument list is typed accordingly. -/
inductive PyVal where
  | gdf (g : GeoDF)
  | pyDict (entries : List (String × PyVal))
  | pyInt (n : Int)
  | pyStr (s : String)
  | crsObj (c : CRS)
  | pyNone
  | func (f : List GeoDF → Except PyExn PyVal)
  | otherVal (tag : String)

/-- Python equality as used by the assertEqual checks: int against int,
string against string, CRS against CRS by identity; pyproj additionally
treats a string equal to a CRS when it names the same system.  Everything
else the harness compares is unequal. -/
def pyEq : PyVal → PyVal → Bool
  | .pyInt a, .pyInt b => a = b
  | .pyStr a, .pyStr b => a = b
  | .crsObj a, .crsObj b => a = b
  | .crsObj a, .pyStr s => s = a.code
  | .pyStr s, .crsObj a => s = a.code
  | .pyNone, .pyNone => true
  | _, _ => false

/-- Attribute access value.crs: only a GeoDataFrame carries it; on any other
value the access raises AttributeError, as in Python. -/
def getCrsAttr : PyVal → Except PyExn (Option CRS)
  | .gdf g => .ok g.crs
  | _ => .error (.attributeError "object has no attribute crs")

/-- Calling a value on geodataframe arguments: a function runs, anything else
raises TypeError. -/
def callPy : PyVal → List GeoDF → Except PyExn PyVal
  | .func f, args => f args
  | _, _ => .error (.typeError "object is not callable")

/-- Outcome of one unittest method: an assertion that does not hold makes the
check fail with its message, any other exception escapes the method and the
runner records it as an error. -/
inductive Outcome where
  | passed
  | failed (msg : String)
  | errored (e : PyExn)
deriving DecidableEq, Repr

/-- One notebook cell: a type tag and its source text. -/
structure Cell where
  cell_type : String
  source : String
deriving DecidableEq, Repr

/-- A parsed notebook document: an ordered sequence of cells. -/
structure Notebook where
  cells : List Cell
deriving DecidableEq, Repr

/-- The globals mapping built by re-executing code cells: an association list
from defined name to value, later bindings shadowing earlier ones by being
consed in front. -/
abbrev Globals := List (String × PyVal)

/-- Dictionary lookup, first binding wins. -/
def lookupG (g : Globals) (k : String) : Option PyVal :=
  (g.find? (fun p => p.1 == k)).map Prod.snd

/-- Lookup in a student-returned dictionary value. -/
def lookupD (d : List (String × PyVal)) (k : String) : Option PyVal :=
  (d.find? (fun p => p.1 == k)).map Prod.snd

/-!
The import check scans each code cell source with the pattern
  caret backslash-s star import backslash-s plus (word), alternated with
  caret backslash-s star from backslash-s plus (word)
in MULTILINE mode and collects the captured words.  The scanner below mirrors
findall on that pattern: the anchor restricts match attempts to line starts,
both alternatives take a maximal whitespace run (whitespace and word
characters are disjoint, so the greedy runs are deterministic), a literal
keyword, at least one whitespace character and then a maximal nonempty run of
word characters, which is the captured group; scanning resumes after the end
of a successful match, and positions between line starts can never match. -/

/-- Whitespace characters matched by the backslash-s class. -/
def isPySpace (c : Char) : Bool :=
  c = ' ' || c = '\t' || c = '\n' || c = '\r' || c = '\x0b' || c = '\x0c'

/-- Word characters matched by the backslash-w class. -/
def isWordChar (c : Char) : Bool :=
  c.isAlphanum || c = '_'

/-- The literal keyword of the first alternative. -/
def importKw : List Char := ['i', 'm', 'p', 'o', 'r', 't']

/-- The literal keyword of the second alternative. -/
def fromKw : List Char := ['f', 'r', 'o', 'm']

/-- Matching a literal: strips the keyword off the front or fails. -/
def stripLit : List Char → List Char → Option (List Char)
  | [], s => some s
  | _ :: _, [] => none
  | k :: ks, c :: cs => if c = k then stripLit ks cs else none

/-- One alternative of the pattern, attempted at a line start: maximal
whitespace run, the literal keyword, at least one whitespace character, then
the captured maximal nonempty word-character run.  Returns the captured name
and the remainder of the input after the match. -/
def tryForm (kw : List Char) (s : List Char) : Option (String × List Char) :=
  let s1 := s.dropWhile isPySpace
  match stripLit kw s1 with
  | none => none
  | some s2 =>
    match s2 with
    | [] => none
    | c :: rest =>
      if isPySpace c then
        let s3 := rest.dropWhile isPySpace
        let w := s3.takeWhile isWordChar
        if w.isEmpty then none
        else some (String.mk w, s3.dropWhile isWordChar)
      else none

/-- Advances to the next line start: the suffix right after the first newline,
or none when no further line start exists. -/
def nextLine : List Char → Option (List Char)
  | [] => none
  | c :: cs => if c = '\n' then some cs else nextLine cs

/-- Scanner driver on fuel: at the current line start try the import
alternative, then the from alternative; on a match emit the captured name and
resume at the next line start after the match (a match always ends in a word
character, so the position right after it is never itself a line start); on
failure move to the next line start.  Every step consumes at least one input
character, so fuel larger than the input length never runs out. -/
def scanImportsF : Nat → List Char → List String
  | 0, _ => []
  | fuel + 1, s =>
    match tryForm importKw s with
    | some (w, rest) =>
      w :: (match nextLine rest with
            | some s2 => scanImportsF fuel s2
            | none => [])
    | none =>
      match tryForm fromKw s with
      | some (w, rest) =>
        w :: (match nextLine rest with
              | some s2 => scanImportsF fuel s2
              | none => [])
      | none =>
        match nextLine s with
        | some s2 => scanImportsF fuel s2
        | none => []

/-- All names captured from one source text, in order. -/
def scanImports (s : List Char) : List String :=
  scanImportsF (s.length + 1) s

/-- Code cell index built in setUpClass: enumerate the cells and keep the
code ones keyed by their original position. -/
def codeCells (nb : Notebook) : List (Nat × Cell) :=
  nb.cells.enum.filter (fun p => p.2.cell_type == "code")

/-- Semantics of one exec call on a cell source against a namespace, supplied
by the Python interpreter: the updated namespace (exec mutates the mapping up
to the point of a raise) together with the exception it raised, if any. -/
abbrev CellSem := String → Globals → Globals × Option PyExn

/-- The namespace extraction loop of setUpClass: starting from the empty
mapping, exec each code cell source in turn into the shared namespace; the
loop body has no exception handler, so the first raising cell stops the loop
with the partially built mapping and the raised exception. -/
def execCells (sem : CellSem) : List Cell → Globals → Globals × Option PyExn
  | [], g => (g, none)
  | c :: cs, g =>
    if c.cell_type == "code" then
      match sem c.source g with
      | (g2, none) => execCells sem cs g2
      | (g2, some e) => (g2, some e)
    else execCells sem cs g

/-- Inputs of one setUpClass run that come from outside the harness: the
result of opening and parsing the fixed-path notebook file, the outcome of
the bounded-timeout ExecutePreprocessor run (ok, or the text of the raised
error), the interpreter semantics used by the exec loop, and the text the
execution wrote to the captured stdout. -/
structure SetupEnv where
  readResult : Except PyExn Notebook
  execResult : Except String Unit
  sem : CellSem
  capturedOutput : String

/-- Class attributes left behind by setUpClass.  An outer none means the
attribute was never assigned, so reading it raises AttributeError; the
notebook attribute additionally distinguishes being set to Python None. -/
structure ClassState where
  notebook : Option (Option Notebook)
  code_cells : Option (List (Nat × Cell))
  execution_successful : Bool
  execution_error : Option String
  execution_output : Option String
  globals : Option Globals

/-- The degraded state the FileNotFoundError handler leaves when the open of
the notebook file itself fails: notebook set to None and the execution marked
unsuccessful, every other attribute never assigned. -/
def stMissing : ClassState :=
  { notebook := some none, code_cells := none, execution_successful := false,
    execution_error := none, execution_output := none, globals := none }

/-- setUpClass: open and parse the notebook (only FileNotFoundError is
handled, by degrading to stMissing; any other parse error propagates), build
the code cell index, run the executor recording success or the error text,
record the captured output, then re-execute every code cell into a fresh
globals mapping.  A FileNotFoundError raised by a cell in that loop is caught
by the same handler, which then also resets the notebook attribute to None
and the success flag to false; any other cell exception propagates out of
setUpClass. -/
def setUpClass (env : SetupEnv) : Except PyExn ClassState :=
  match env.readResult with
  | .error .fileNotFound => .ok stMissing
  | .error e => .error e
  | .ok nb =>
    let cc := codeCells nb
    let succErr : Bool × Option String :=
      match env.execResult with
      | .ok _ => (true, none)
      | .error m => (false, some m)
    match execCells env.sem nb.cells [] with
    | (g, none) =>
      .ok { notebook := some (some nb), code_cells := some cc,
            execution_successful := succErr.1, execution_error := succErr.2,
            execution_output := some env.capturedOutput, globals := some g }
    | (g, some .fileNotFound) =>
      .ok { notebook := some none, code_cells := some cc,
            execution_successful := false, execution_error := succErr.2,
            execution_output := some env.capturedOutput, globals := some g }
    | (_, some e) => .error e

/-- The fixed list of libraries the import check requires. -/
def requiredLibraries : List String :=
  ["geopandas", "pandas", "numpy", "matplotlib", "seaborn", "folium", "contextily"]

/-- All names captured by the pattern over the code cells of the notebook, in
cell order. -/
def importStatements (nb : Notebook) : List String :=
  (nb.cells.filter (fun c => c.cell_type == "code")).flatMap
    (fun c => scanImports c.source.toList)

/-- The assertIn loop of the import check: the first required library not
found among the captured names, if any. -/
def firstMissingLib (imports : List String) : List String → Option String
  | [] => none
  | lib :: rest => if imports.contains lib then firstMissingLib imports rest else some lib

/-- test_00_notebook_execution: asserts the execution success flag, with the
recorded error text in the failure message when present. -/
def test_00_notebook_execution (st : ClassState) : Outcome :=
  if st.execution_successful then .passed
  else .failed ("Notebook execution failed with error: "
                 ++ st.execution_error.getD "Unknown error")

/-- test_01_required_libraries: walks the notebook cells, so it raises
AttributeError when the notebook attribute is unset or is None; otherwise it
scans the code cell sources and asserts each required library among the
captured names. -/
def test_01_required_libraries (st : ClassState) : Outcome :=
  match st.notebook with
  | none => .errored (.attributeError "type object TestGISAssignment has no attribute notebook")
  | some none => .errored (.attributeError "NoneType object has no attribute cells")
  | some (some nb) =>
    match firstMissingLib (importStatements nb) requiredLibraries with
    | some lib => .failed ("Required library " ++ lib ++ " is not imported")
    | none => .passed

/-- test_02_load_shapefile: membership of tz_shapefile in the globals
mapping, then its type, then non-emptiness, then the geometry column, in the
order of the assertions. -/
def test_02_load_shapefile (st : ClassState) : Outcome :=
  match st.globals with
  | none => .errored (.attributeError "type object TestGISAssignment has no attribute globals")
  | some g =>
    match lookupG g "tz_shapefile" with
    | none => .failed "Tanzania shapefile variable tz_shapefile not found"
    | some v =>
      match v with
      | .gdf t =>
        if t.nrows > 0 then
          if t.columns.contains "geometry" then .passed
          else .failed "Tanzania shapefile should have a geometry column"
        else .failed "Tanzania shapefile should not be empty"
      | _ => .failed "Tanzania shapefile should be a GeoDataFrame"

/-- The geographic reference system used by the synthetic fixtures. -/
def epsg4326 : CRS := { code := "EPSG:4326", is_projected := false }

/-- The projected reference system the second fixture of test_05 is
reprojected to. -/
def epsg3857 : CRS := { code := "EPSG:3857", is_projected := true }

/-- The synthetic two-point table test_03 builds: one attribute column plus
the geometry column, two rows, explicit geographic reference system. -/
def testGdf03 : GeoDF :=
  { columns := ["col1", "geometry"], nrows := 2, crs := some epsg4326 }

/-- The keys test_03 requires in the returned dictionary. -/
def requiredKeys03 : List String :=
  ["crs", "geometry_type", "num_features", "attributes", "bounds"]

/-- The assertIn loop over the required keys: the first key missing from the
returned dictionary, if any. -/
def firstMissingKey (d : List (String × PyVal)) : List String → Option String
  | [] => none
  | k :: rest => if (lookupD d k).isSome then firstMissingKey d rest else some k

/-- test_03_describe_geodataframe: membership of the function name in the
globals mapping, invocation on the synthetic two-point table (an uncaught
exception from the call escapes the check), then the dictionary type, the
required keys, the feature count and the reference system of the result, in
the order of the assertions. -/
def test_03_describe_geodataframe (st : ClassState) : Outcome :=
  match st.globals with
  | none => .errored (.attributeError "type object TestGISAssignment has no attribute globals")
  | some g =>
    match lookupG g "describe_geodataframe" with
    | none => .failed "Function describe_geodataframe not found"
    | some v =>
      match callPy v [testGdf03] with
      | .error e => .errored e
      | .ok r =>
        match r with
        | .pyDict d =>
          match firstMissingKey d requiredKeys03 with
          | some k => .failed ("describe_geodataframe result should have " ++ k ++ " key")
          | none =>
            match lookupD d "num_features" with
            | none => .errored (.keyError "num_features")
            | some nf =>
              if pyEq nf (.pyInt 2) then
                match lookupD d "crs" with
                | none => .errored (.keyError "crs")
                | some rc =>
                  if pyEq rc (.crsObj epsg4326) then .passed
                  else .failed "describe_geodataframe should correctly identify CRS"
              else .failed "describe_geodataframe should correctly count features"
        | _ => .failed "describe_geodataframe should return a dictionary"

/-- test_04_reproject_data: membership of tz_projected in the globals
mapping, then an unguarded subscript of tz_shapefile (KeyError when absent)
and of tz_projected, the type of tz_projected, the inequality of the two crs
attributes (reading crs off the tz_shapefile value raises AttributeError
when it has none), and finally that the new reference system is projected
(is_projected on a None crs raises AttributeError), in the order of the
statements. -/
def test_04_reproject_data (st : ClassState) : Outcome :=
  match st.globals with
  | none => .errored (.attributeError "type object TestGISAssignment has no attribute globals")
  | some g =>
    if (lookupG g "tz_projected").isSome then
      match lookupG g "tz_shapefile" with
      | none => .errored (.keyError "tz_shapefile")
      | some shp =>
        match lookupG g "tz_projected" with
        | none => .errored (.keyError "tz_projected")
        | some proj =>
          match proj with
          | .gdf pg =>
            match getCrsAttr shp with
            | .error e => .errored e
            | .ok shpCrs =>
              if shpCrs = pg.crs then .failed "The CRS should be changed after reprojection"
              else
                match pg.crs with
                | none => .errored (.attributeError "NoneType object has no attribute is_projected")
                | some c =>
                  if c.is_projected then .passed
                  else .failed "The reprojected data should use a projected CRS"
          | _ => .failed "tz_projected should be a GeoDataFrame"
    else .failed "Reprojected Tanzania shapefile variable tz_projected not found"

/-- Models the attribute access gpd.box used by test_05 to build its one-row
unit-box fixture: the geopandas module exposes points_from_xy but no
top-level box (box lives in shapely.geometry), so the access raises
AttributeError before any geometry is built. -/
def gpdBoxAttr : Except PyExn Unit :=
  .error (.attributeError "module geopandas has no attribute box")

/-- The one-row unit-box fixture test_05 intends to build in the geographic
reference system. -/
def testGdf05a : GeoDF :=
  { columns := ["col1", "geometry"], nrows := 1, crs := some epsg4326 }

/-- The same fixture reprojected to the projected reference system. -/
def testGdf05b : GeoDF :=
  { columns := ["col1", "geometry"], nrows := 1, crs := some epsg3857 }

/-- test_05_compare_projections: membership of the function name in the
globals mapping, then the fixture construction, which starts with the
attribute access modelled by gpdBoxAttr; only if that succeeded would the
reprojected counterpart be built, the function invoked on the pair, the
dictionary type asserted and the remainder of the check run.  The source
file is cut off inside the dictionary assertion, so the remainder is the
explicit continuation argument, modelled from the spec: the exact required
keys are determined by the full suite beyond the shown excerpt. -/
def test_05_compare_projections (rest : PyVal → Outcome) (st : ClassState) : Outcome :=
  match st.globals with
  | none => .errored (.attributeError "type object TestGISAssignment has no attribute globals")
  | some g =>
    match lookupG g "compare_projections" with
    | none => .failed "Function compare_projections not found"
    | some v =>
      match gpdBoxAttr with
      | .error e => .errored e
      | .ok _ =>
        match callPy v [testGdf05a, testGdf05b] with
        | .error e => .errored e
        | .ok r =>
          match r with
          | .pyDict _ => rest r
          | _ => .failed "compare_projections should return a dictionary"

/-- A class state whose globals mapping is the given one, as left by a run
with a loaded notebook: used to exercise the content checks directly. -/
def mkState (g : Globals) : ClassState :=
  { notebook := some (some ⟨[]⟩), code_cells := some [],
    execution_successful := true, execution_error := none,
    execution_output := some "", globals := some g }

/-- A run against a missing submission file: the open raises
FileNotFoundError and nothing else happens. -/
def envMissing : SetupEnv :=
  { readResult := .error .fileNotFound, execResult := .ok (),
    sem := fun _ g => (g, none), capturedOutput := "" }

/-- A loaded Tanzania table fixture. -/
def tzGdf : GeoDF :=
  { columns := ["name", "geometry"], nrows := 3, crs := some epsg4326 }

/-- A reprojected Tanzania table fixture. -/
def projGdf : GeoDF :=
  { columns := ["name", "geometry"], nrows := 3, crs := some epsg3857 }

/-- A one-cell notebook whose cell loads the shapefile variable. -/
def nbLoad : Notebook := ⟨[{ cell_type := "code", source := "cell-load" }]⟩

/-- Interpreter semantics for nbLoad: the cell binds tz_shapefile and raises
nothing; any other source raises. -/
def semLoad : CellSem := fun src g =>
  if src == "cell-load" then (("tz_shapefile", PyVal.gdf tzGdf) :: g, none)
  else (g, some (.other "unexpected cell"))

/-- A run of nbLoad in which the ExecutePreprocessor raises but the separate
exec loop succeeds: the executor fails while the globals mapping is built. -/
def envExecFail : SetupEnv :=
  { readResult := .ok nbLoad, execResult := .error "Kernel died before replying",
    sem := semLoad, capturedOutput := "" }

/-- The class state envExecFail produces. -/
def stExecFail : ClassState :=
  { notebook := some (some nbLoad), code_cells := some [(0, { cell_type := "code", source := "cell-load" })],
    execution_successful := false, execution_error := some "Kernel died before replying",
    execution_output := some "", globals := some [("tz_shapefile", PyVal.gdf tzGdf)] }

/-- A one-cell notebook whose cell raises when re-executed. -/
def nbBoom : Notebook := ⟨[{ cell_type := "code", source := "cell-boom" }]⟩

/-- Interpreter semantics for nbBoom: the cell raises a NameError. -/
def semBoom : CellSem := fun src g =>
  if src == "cell-boom" then (g, some (.other "NameError: name undefined_var is not defined"))
  else (g, none)

/-- A run of nbBoom: the notebook parses and executes, but the exec loop of
the namespace extraction hits the raising cell. -/
def envBoom : SetupEnv :=
  { readResult := .ok nbBoom, execResult := .ok (), sem := semBoom, capturedOutput := "" }

/-- A second raising-cell run used to instantiate the amended statement. -/
def semZero : CellSem := fun src g =>
  if src == "cell-boom" then (g, some (.other "ZeroDivisionError: division by zero"))
  else (g, none)

/-- The run of nbBoom under semZero. -/
def envZero : SetupEnv :=
  { readResult := .ok nbBoom, execResult := .ok (), sem := semZero, capturedOutput := "" }

/-- A dictionary with the five required keys plus one extra key. -/
def dictExtra : List (String × PyVal) :=
  [("crs", .crsObj epsg4326), ("geometry_type", .pyStr "Point"),
   ("num_features", .pyInt 2), ("attributes", .pyStr "col1"),
   ("bounds", .pyStr "bounds"), ("extra", .pyInt 0)]

/-- Globals binding describe_geodataframe to a function returning dictExtra. -/
def gDescExtra : Globals :=
  [("describe_geodataframe", PyVal.func (fun _ => .ok (.pyDict dictExtra)))]

/-- A dictionary with exactly the five required keys. -/
def dictExact : List (String × PyVal) :=
  [("crs", .crsObj epsg4326), ("geometry_type", .pyStr "Point"),
   ("num_features", .pyInt 2), ("attributes", .pyStr "col1"),
   ("bounds", .pyStr "bounds")]

/-- Globals binding describe_geodataframe to a function returning dictExact. -/
def gDescExact : Globals :=
  [("describe_geodataframe", PyVal.func (fun _ => .ok (.pyDict dictExact)))]

/-- Equality of key lists as sets. -/
def keySetEq (a b : List String) : Bool :=
  a.all (fun k => b.contains k) && b.all (fun k => a.contains k)

/-- Globals with a valid source table and a valid reprojected table. -/
def gReproj : Globals :=
  [("tz_shapefile", PyVal.gdf tzGdf), ("tz_projected", PyVal.gdf projGdf)]

/-- Globals with the reprojected table present but the source table absent. -/
def gProjOnly : Globals := [("tz_projected", PyVal.gdf projGdf)]

/-- Globals binding compare_projections to a function returning an empty
dictionary, as a correct submission would. -/
def gCompare : Globals :=
  [("compare_projections", PyVal.func (fun _ => .ok (.pyDict [])))]

/-- A continuation for the truncated remainder of test_05 that passes
whatever reaches it. -/
def restPass : PyVal → Outcome := fun _ => .passed

/-- A notebook importing every required library under an alias or a dotted
submodule name. -/
def nbAlias : Notebook :=
  ⟨[{ cell_type := "code",
      source := "import geopandas as gpd\nimport pandas as pd\nimport numpy as np\nimport matplotlib.pyplot as plt\nimport seaborn as sns\nimport folium\nimport contextily as ctx\n" }]⟩

/-- The class state of a run that loaded nbAlias. -/
def stAlias : ClassState := { mkState [] with notebook := some (some nbAlias) }

/-- A notebook whose only mention of seaborn sits inside a function body
behind a branch that never executes. -/
def nbNested : Notebook :=
  ⟨[{ cell_type := "code",
      source := "def setup():\n    if False:\n        import seaborn\n    return 1\n" }]⟩

/-- Rewrites the source of every non-code cell with the given function,
leaving code cells untouched. -/
def mangleCell (f : String → String) (c : Cell) : Cell :=
  if c.cell_type == "code" then c else { c with source := f c.source }

/-- A notebook with every non-code cell source rewritten. -/
def mangle (f : String → String) (nb : Notebook) : Notebook :=
  ⟨nb.cells.map (mangleCell f)⟩

/-- A notebook mixing a non-code cell and a code cell. -/
def nbMixed : Notebook :=
  ⟨[{ cell_type := "markdown", source := "some prose" },
    { cell_type := "code", source := "import numpy" }]⟩

/-!
Helper lemmas shared by the claim theorems.
-/

/-- Bool membership test agrees with list membership for strings. -/
theorem contains_iff_mem (l : List String) (a : String) : l.contains a = true ↔ a ∈ l := by
  simp

/-- The assertIn loop over the required libraries finds nothing missing
exactly when every required library was captured. -/
theorem firstMissingLib_eq_none (imports libs : List String) :
    firstMissingLib imports libs = none ↔ ∀ lib ∈ libs, lib ∈ imports := by
  induction libs with
  | nil => simp [firstMissingLib]
  | cons a rest ih =>
    cases hc : imports.contains a with
    | true =>
      have hm : a ∈ imports := (contains_iff_mem imports a).mp hc
      simp [firstMissingLib, hc, ih, hm]
    | false =>
      have hm : a ∉ imports := by
        intro hmem
        rw [(contains_iff_mem imports a).mpr hmem] at hc
        cases hc
      simp [firstMissingLib, hc, hm]

/-- When the loop does find a missing library, it is a required one that was
not captured. -/
theorem firstMissingLib_eq_some (imports libs : List String) (lib : String)
    (h : firstMissingLib imports libs = some lib) : lib ∈ libs ∧ lib ∉ imports := by
  induction libs with
  | nil => simp [firstMissingLib] at h
  | cons a rest ih =>
    cases hc : imports.contains a with
    | true =>
      simp only [firstMissingLib, hc, if_true] at h
      rcases ih h with ⟨h1, h2⟩
      exact ⟨List.mem_cons_of_mem a h1, h2⟩
    | false =>
      simp only [firstMissingLib, hc, Bool.false_eq_true, if_false, Option.some.injEq] at h
      subst h
      refine ⟨List.mem_cons_self a rest, ?_⟩
      intro hmem
      rw [(contains_iff_mem imports a).mpr hmem] at hc
      cases hc

/-- The assertIn loop over the required keys finds nothing missing exactly
when every required key is present in the dictionary. -/
theorem firstMissingKey_eq_none (d : List (String × PyVal)) (ks : List String) :
    firstMissingKey d ks = none ↔ ∀ k ∈ ks, (lookupD d k).isSome = true := by
  induction ks with
  | nil => simp [firstMissingKey]
  | cons a rest ih =>
    cases hc : (lookupD d a).isSome with
    | true => simp [firstMissingKey, hc, ih]
    | false => simp [firstMissingKey, hc]

/-- When the loop does find a missing key, it is a required one absent from
the dictionary. -/
theorem firstMissingKey_eq_some (d : List (String × PyVal)) (ks : List String) (k : String)
    (h : firstMissingKey d ks = some k) : k ∈ ks ∧ lookupD d k = none := by
  induction ks with
  | nil => simp [firstMissingKey] at h
  | cons a rest ih =>
    cases hc : (lookupD d a).isSome with
    | true =>
      simp only [firstMissingKey, hc, if_true] at h
      rcases ih h with ⟨h1, h2⟩
      exact ⟨List.mem_cons_of_mem a h1, h2⟩
    | false =>
      simp only [firstMissingKey, hc, Bool.false_eq_true, if_false, Option.some.injEq] at h
      subst h
      exact ⟨List.mem_cons_self a rest, Option.not_isSome_iff_eq_none.mp (by simp [hc])⟩

/-- Dropping a satisfied prefix passes over an all-satisfying first part. -/
theorem dropWhile_append_all (p : Char → Bool) (l1 l2 : List Char)
    (h : ∀ c ∈ l1, p c = true) : (l1 ++ l2).dropWhile p = l2.dropWhile p := by
  induction l1 with
  | nil => rfl
  | cons a t ih =>
    simp only [List.cons_append, List.dropWhile_cons, h a (by simp)]
    exact ih (fun c hc => h c (by simp [hc]))

/-- Stripping a literal off a string that starts with it leaves the rest. -/
theorem stripLit_append (k r : List Char) : stripLit k (k ++ r) = some r := by
  induction k with
  | nil => rfl
  | cons a t ih => simp [stripLit, ih]

/-- Word characters and whitespace characters are disjoint. -/
theorem word_not_space (c : Char) (h : isWordChar c = true) : isPySpace c = false := by
  cases hs : isPySpace c with
  | false => rfl
  | true =>
    exfalso
    simp only [isPySpace, Bool.or_eq_true, decide_eq_true_eq] at hs
    rcases hs with ((((rfl | rfl) | rfl) | rfl) | rfl) | rfl
    all_goals exact absurd h (by decide)

/-- The import alternative succeeds on any amount of leading whitespace
followed by the keyword, one space and a word, capturing exactly the word. -/
theorem tryForm_ws_import (ws m : List Char) (hws : ∀ c ∈ ws, isPySpace c = true)
    (hm : m ≠ []) (hmw : ∀ c ∈ m, isWordChar c = true) :
    tryForm importKw (ws ++ importKw ++ ' ' :: m) = some (String.mk m, []) := by
  have h1 : (ws ++ importKw ++ ' ' :: m).dropWhile isPySpace = importKw ++ ' ' :: m := by
    rw [List.append_assoc, dropWhile_append_all isPySpace ws _ hws]
    simp [importKw, List.dropWhile_cons, (by decide : isPySpace 'i' = false)]
  have h3 : m.dropWhile isPySpace = m := by
    cases m with
    | nil => rfl
    | cons a t => simp [List.dropWhile_cons, word_not_space a (hmw a (by simp))]
  have h4 : m.takeWhile isWordChar = m := List.takeWhile_eq_self_iff.mpr hmw
  have h5 : m.dropWhile isWordChar = [] := List.dropWhile_eq_nil_iff.mpr hmw
  have h6 : m.isEmpty = false := by
    cases m with
    | nil => exact absurd rfl hm
    | cons a t => rfl
  simp only [tryForm, h1, stripLit_append]
  simp [h3, h4, h5, h6, (by decide : isPySpace ' ' = true)]

/-- The scanner on such an input captures exactly the one word. -/
theorem scanImports_ws_import (ws m : List Char) (hws : ∀ c ∈ ws, isPySpace c = true)
    (hm : m ≠ []) (hmw : ∀ c ∈ m, isWordChar c = true) :
    scanImports (ws ++ importKw ++ ' ' :: m) = [String.mk m] := by
  simp only [scanImports, scanImportsF, tryForm_ws_import ws m hws hm hmw]
  rfl

/-- Rewriting a non-code cell never changes its type tag. -/
theorem mangleCell_type (f : String → String) (c : Cell) :
    (mangleCell f c).cell_type = c.cell_type := by
  unfold mangleCell
  split <;> rfl

/-- Rewriting leaves a code cell untouched. -/
theorem mangleCell_code (f : String → String) (c : Cell) (h : c.cell_type == "code") :
    mangleCell f c = c := by
  simp [mangleCell, h]

/-- The enumerated code-cell filter ignores the sources of non-code cells. -/
theorem enumFrom_filter_mangle (f : String → String) (l : List Cell) (n : Nat) :
    (List.enumFrom n (l.map (mangleCell f))).filter (fun p => p.2.cell_type == "code") =
    (List.enumFrom n l).filter (fun p => p.2.cell_type == "code") := by
  induction l generalizing n with
  | nil => rfl
  | cons c t ih =>
    simp only [List.map_cons, List.enumFrom_cons, List.filter_cons]
    cases hc : c.cell_type == "code" with
    | true => simp [mangleCell_code f c hc, mangleCell_type, hc, ih]
    | false => simp [mangleCell_type, hc, ih]

/-- The code-cell index of setUpClass is blind to non-code cell sources. -/
theorem codeCells_mangle (f : String → String) (nb : Notebook) :
    codeCells (mangle f nb) = codeCells nb := by
  unfold codeCells mangle List.enum
  exact enumFrom_filter_mangle f nb.cells 0

/-- The namespace extraction loop is blind to non-code cell sources. -/
theorem execCells_mangle (sem : CellSem) (f : String → String) (l : List Cell) (g : Globals) :
    execCells sem (l.map (mangleCell f)) g = execCells sem l g := by
  induction l generalizing g with
  | nil => rfl
  | cons c t ih =>
    cases hc : c.cell_type == "code" with
    | true =>
      rw [List.map_cons, mangleCell_code f c hc]
      simp only [execCells, hc]
      rcases hsem : sem c.source g with ⟨g2, e?⟩
      cases e? with
      | none => exact ih g2
      | some e => rfl
    | false =>
      simp only [List.map_cons, execCells, mangleCell_type, hc]
      exact ih g

/-- The filtered code-cell list itself is unchanged by the rewrite. -/
theorem filter_code_mangle (f : String → String) (l : List Cell) :
    (l.map (mangleCell f)).filter (fun c => c.cell_type == "code") =
    l.filter (fun c => c.cell_type == "code") := by
  induction l with
  | nil => rfl
  | cons c t ih =>
    simp only [List.map_cons, List.filter_cons]
    cases hc : c.cell_type == "code" with
    | true => simp [mangleCell_code f c hc, mangleCell_type, hc, ih]
    | false => simp [mangleCell_type, hc, ih]

/-- The import scan is blind to non-code cell sources. -/
theorem importStatements_mangle (f : String → String) (nb : Notebook) :
    importStatements (mangle f nb) = importStatements nb := by
  unfold importStatements mangle
  rw [filter_code_mangle]

/-!
Claim theorems.
-/

/-- C1 counterexample: with the submission notebook absent, setUpClass leaves
the degraded state, and the first content check then escapes with an
AttributeError instead of reporting a failure, refuting the claim that every
check reports a failure rather than escaping with an exception. -/
theorem C1_missing_file_counterexample :
    setUpClass envMissing = .ok stMissing ∧
    test_01_required_libraries stMissing =
      .errored (.attributeError "NoneType object has no attribute cells") ∧
    test_02_load_shapefile stMissing =
      .errored (.attributeError "type object TestGISAssignment has no attribute globals") :=
  ⟨rfl, rfl, rfl⟩

/-- C1 amended: when the submission notebook file is absent, setUpClass
catches the error and does not raise, the execution check reports a failure,
and every content check escapes with an AttributeError, which the runner
records as an error rather than a failure. -/
theorem C1_missing_file_amended (env : SetupEnv)
    (h : env.readResult = .error .fileNotFound) :
    setUpClass env = .ok stMissing ∧
    test_00_notebook_execution stMissing =
      .failed "Notebook execution failed with error: Unknown error" ∧
    test_01_required_libraries stMissing =
      .errored (.attributeError "NoneType object has no attribute cells") ∧
    test_02_load_shapefile stMissing =
      .errored (.attributeError "type object TestGISAssignment has no attribute globals") ∧
    test_03_describe_geodataframe stMissing =
      .errored (.attributeError "type object TestGISAssignment has no attribute globals") ∧
    test_04_reproject_data stMissing =
      .errored (.attributeError "type object TestGISAssignment has no attribute globals") ∧
    ∀ rest, test_05_compare_projections rest stMissing =
      .errored (.attributeError "type object TestGISAssignment has no attribute globals") := by
  refine ⟨?_, rfl, rfl, rfl, rfl, rfl, fun rest => rfl⟩
  simp [setUpClass, h]

/-- C1 witness: the amended statement instantiated at the concrete run whose
file open raises FileNotFoundError. -/
theorem C1_missing_file_witness :
    setUpClass envMissing = .ok stMissing ∧
    test_00_notebook_execution stMissing =
      .failed "Notebook execution failed with error: Unknown error" :=
  ⟨(C1_missing_file_amended envMissing rfl).1, (C1_missing_file_amended envMissing rfl).2.1⟩

/-- C2 counterexample: a run in which the ExecutePreprocessor raises while
the separate exec pass succeeds leaves the globals mapping populated, the
execution check failing, and a content check passing, refuting the claim
that an executor failure makes all content checks fail through an absent
globals mapping. -/
theorem C2_exec_failure_counterexample :
    setUpClass envExecFail = .ok stExecFail ∧
    test_00_notebook_execution stExecFail =
      .failed "Notebook execution failed with error: Kernel died before replying" ∧
    test_02_load_shapefile stExecFail = .passed :=
  ⟨rfl, rfl, rfl⟩

/-- C2 amended: when the executor raises, its message is captured and
surfaces as the failing execution check, while the globals mapping is built
by the independent re-execution pass, so the content checks run against that
mapping and are not forced to fail by the executor outcome. -/
theorem C2_exec_failure_amended (env : SetupEnv) (nb : Notebook) (g : Globals) (m : String)
    (h1 : env.readResult = .ok nb) (h2 : env.execResult = .error m)
    (h3 : execCells env.sem nb.cells [] = (g, none)) :
    ∃ st, setUpClass env = .ok st ∧ st.execution_successful = false ∧
      st.execution_error = some m ∧
      test_00_notebook_execution st =
        .failed ("Notebook execution failed with error: " ++ m) ∧
      st.notebook = some (some nb) ∧ st.globals = some g := by
  have hs : setUpClass env = .ok ⟨some (some nb), some (codeCells nb), false, some m, some env.capturedOutput, some g⟩ := by
    simp [setUpClass, h1, h2, h3]
  exact ⟨_, hs, rfl, rfl, by simp [test_00_notebook_execution], rfl, rfl⟩

/-- C2 witness: the amended statement instantiated at the concrete
executor-failure run. -/
theorem C2_exec_failure_witness :
    ∃ st, setUpClass envExecFail = .ok st ∧ st.execution_successful = false ∧
      st.execution_error = some "Kernel died before replying" ∧
      test_00_notebook_execution st =
        .failed ("Notebook execution failed with error: " ++ "Kernel died before replying") ∧
      st.notebook = some (some nbLoad) ∧
      st.globals = some [("tz_shapefile", PyVal.gdf tzGdf)] :=
  C2_exec_failure_amended envExecFail nbLoad [("tz_shapefile", PyVal.gdf tzGdf)]
    "Kernel died before replying" rfl rfl rfl

/-- C3 counterexample: a notebook whose only cell raises a NameError when
re-executed makes setUpClass itself propagate the exception, refuting the
claim that the namespace extraction pass tolerates failing cells. -/
theorem C3_failing_cell_counterexample :
    setUpClass envBoom = .error (.other "NameError: name undefined_var is not defined") :=
  rfl

/-- C3 amended: the extraction pass stops at the first raising code cell;
unless the exception is a FileNotFoundError it propagates out of setUpClass,
and when it is a FileNotFoundError the surrounding handler degrades the run,
resetting the notebook attribute to None and the success flag to false while
keeping the partially built mapping. -/
theorem C3_failing_cell_amended (env : SetupEnv) (nb : Notebook) (g : Globals) (e : PyExn)
    (h1 : env.readResult = .ok nb) (h2 : execCells env.sem nb.cells [] = (g, some e)) :
    (e ≠ .fileNotFound → setUpClass env = .error e) ∧
    (e = .fileNotFound → ∃ st, setUpClass env = .ok st ∧ st.notebook = some none ∧
      st.execution_successful = false ∧ st.globals = some g) := by
  constructor
  · intro hne
    cases e with
    | fileNotFound => exact absurd rfl hne
    | attributeError msg => simp [setUpClass, h1, h2]
    | keyError msg => simp [setUpClass, h1, h2]
    | typeError msg => simp [setUpClass, h1, h2]
    | other msg => simp [setUpClass, h1, h2]
  · intro heq
    subst heq
    have hs : setUpClass env = .ok ⟨some none, some (codeCells nb), false, (match env.execResult with | .ok _ => (true, none) | .error m => (false, some m) : Bool × Option String).2, some env.capturedOutput, some g⟩ := by
      simp [setUpClass, h1, h2]
    exact ⟨_, hs, rfl, rfl, rfl⟩

/-- C3 witness: the amended statement instantiated at a concrete run whose
cell raises a ZeroDivisionError. -/
theorem C3_failing_cell_witness :
    setUpClass envZero = .error (.other "ZeroDivisionError: division by zero") :=
  (C3_failing_cell_amended envZero nbBoom [] (.other "ZeroDivisionError: division by zero")
    rfl rfl).1 (by decide)


set_option maxRecDepth 8192 in
/-- C4 counterexample: a describe_geodataframe returning the five required
keys plus an extra key passes the check even though its key set is not
exactly the required set, refuting the exactly-these-keys reading. -/
theorem C4_describe_counterexample :
    test_03_describe_geodataframe (mkState gDescExtra) = .passed ∧
    keySetEq (dictExtra.map Prod.fst) requiredKeys03 = false :=
  ⟨rfl, rfl⟩

/-- C4 amended: when the globals mapping binds describe_geodataframe to a
function and invoking it on the synthetic two-point table returns a value,
the check passes exactly when that value is a dictionary whose keys include
all of crs, geometry_type, num_features, attributes and bounds (extra keys
are accepted), with the num_features value equal to 2 and the crs value
equal to the reference system of the input table. -/
theorem C4_describe_amended (st : ClassState) (g : Globals)
    (f : List GeoDF → Except PyExn PyVal) (r : PyVal)
    (hg : st.globals = some g)
    (hf : lookupG g "describe_geodataframe" = some (.func f))
    (hr : f [testGdf03] = .ok r) :
    test_03_describe_geodataframe st = .passed ↔
      ∃ d, r = .pyDict d ∧
        (∀ k ∈ requiredKeys03, (lookupD d k).isSome = true) ∧
        (∃ v, lookupD d "num_features" = some v ∧ pyEq v (.pyInt 2) = true) ∧
        (∃ v, lookupD d "crs" = some v ∧ pyEq v (.crsObj epsg4326) = true) := by
  simp only [test_03_describe_geodataframe, hg, hf, callPy, hr]
  cases r with
  | pyDict d =>
    cases hk : firstMissingKey d requiredKeys03 with
    | some k =>
      rcases firstMissingKey_eq_some d requiredKeys03 k hk with ⟨hk1, hk2⟩
      simp only [hk]
      refine iff_of_false (by simp) ?_
      rintro ⟨d2, hd2, hall, -, -⟩
      injection hd2 with h
      subst h
      have hx := hall k hk1
      rw [hk2] at hx
      cases hx
    | none =>
      have hall := (firstMissingKey_eq_none d requiredKeys03).mp hk
      simp only [hk]
      cases hnf : lookupD d "num_features" with
      | none => exact absurd (hall "num_features" (by decide)) (by simp [hnf])
      | some nf =>
        simp only [hnf]
        cases heq2 : pyEq nf (.pyInt 2) with
        | false =>
          rw [if_neg (by simp)]
          refine iff_of_false (by simp) ?_
          rintro ⟨d2, hd2, -, ⟨v, hv, hveq⟩, -⟩
          injection hd2 with h
          subst h
          rw [hnf] at hv
          injection hv with h2
          subst h2
          simp [heq2] at hveq
        | true =>
          rw [if_pos rfl]
          cases hcr : lookupD d "crs" with
          | none => exact absurd (hall "crs" (by decide)) (by simp [hcr])
          | some rc =>
            simp only [hcr]
            cases hceq : pyEq rc (.crsObj epsg4326) with
            | false =>
              rw [if_neg (by simp)]
              refine iff_of_false (by simp) ?_
              rintro ⟨d2, hd2, -, -, ⟨v, hv, hveq⟩⟩
              injection hd2 with h
              subst h
              rw [hcr] at hv
              injection hv with h2
              subst h2
              simp [hceq] at hveq
            | true =>
              rw [if_pos rfl]
              exact iff_of_true rfl ⟨d, rfl, hall, ⟨nf, hnf, heq2⟩, ⟨rc, hcr, hceq⟩⟩
  | gdf a =>
    refine iff_of_false (by simp) ?_
    rintro ⟨d2, hd2, -, -, -⟩
    simp at hd2
  | pyInt n =>
    refine iff_of_false (by simp) ?_
    rintro ⟨d2, hd2, -, -, -⟩
    simp at hd2
  | pyStr s2 =>
    refine iff_of_false (by simp) ?_
    rintro ⟨d2, hd2, -, -, -⟩
    simp at hd2
  | crsObj c =>
    refine iff_of_false (by simp) ?_
    rintro ⟨d2, hd2, -, -, -⟩
    simp at hd2
  | pyNone =>
    refine iff_of_false (by simp) ?_
    rintro ⟨d2, hd2, -, -, -⟩
    simp at hd2
  | func fn =>
    refine iff_of_false (by simp) ?_
    rintro ⟨d2, hd2, -, -, -⟩
    simp at hd2
  | otherVal t =>
    refine iff_of_false (by simp) ?_
    rintro ⟨d2, hd2, -, -, -⟩
    simp at hd2

set_option maxRecDepth 8192 in
/-- C4 witness: the amended statement instantiated at a submission whose
function returns exactly the required keys. -/
theorem C4_describe_witness :
    test_03_describe_geodataframe (mkState gDescExact) = .passed :=
  (C4_describe_amended (mkState gDescExact) gDescExact
      (fun _ => .ok (.pyDict dictExact)) (.pyDict dictExact) rfl rfl rfl).mpr
    ⟨dictExact, rfl, by decide, ⟨.pyInt 2, rfl, rfl⟩, ⟨.crsObj epsg4326, rfl, rfl⟩⟩

/-- C5: with a loaded notebook, the import check passes exactly when every
one of the seven required module names is among the identifiers the pattern
captures from the code cell sources, whatever aliasing syntax was used. -/
theorem C5_import_check (st : ClassState) (nb : Notebook)
    (h : st.notebook = some (some nb)) :
    test_01_required_libraries st = .passed ↔
      ∀ lib ∈ requiredLibraries, lib ∈ importStatements nb := by
  simp only [test_01_required_libraries, h]
  cases hf : firstMissingLib (importStatements nb) requiredLibraries with
  | none =>
    simp only [hf]
    exact iff_of_true trivial ((firstMissingLib_eq_none _ _).mp hf)
  | some lib =>
    simp only [hf]
    rcases firstMissingLib_eq_some _ _ _ hf with ⟨h1, h2⟩
    exact iff_of_false (by simp) (fun hall => h2 (hall lib h1))

set_option maxRecDepth 16384 in
/-- C5 witness: a notebook importing every required library under aliases or
dotted submodule names passes the import check. -/
theorem C5_import_check_witness :
    test_01_required_libraries stAlias = .passed :=
  (C5_import_check stAlias nbAlias rfl).mpr (by decide)

/-- C6: with the globals mapping present, the transformation check passes
exactly when tz_projected is bound to a geodataframe and tz_shapefile to a
geodataframe whose reference system differs from the tz_projected one, and
the tz_projected reference system is a projected one. -/
theorem C6_reprojection_check (st : ClassState) (g : Globals) (h : st.globals = some g) :
    test_04_reproject_data st = .passed ↔
      ∃ pg sg, lookupG g "tz_projected" = some (.gdf pg) ∧
        lookupG g "tz_shapefile" = some (.gdf sg) ∧
        sg.crs ≠ pg.crs ∧ ∃ c, pg.crs = some c ∧ c.is_projected = true := by
  simp only [test_04_reproject_data, h]
  cases hp : lookupG g "tz_projected" with
  | none =>
    simp only [hp, Option.isSome_none, Bool.false_eq_true, if_false]
    refine iff_of_false (by simp) ?_
    rintro ⟨pg2, sg2, hpp, -, -, -⟩
    simp at hpp
  | some pv =>
    simp only [hp, Option.isSome_some, if_true]
    cases hs2 : lookupG g "tz_shapefile" with
    | none =>
      simp only [hs2]
      refine iff_of_false (by simp) ?_
      rintro ⟨pg2, sg2, -, hss, -, -⟩
      simp at hss
    | some sv =>
      simp only [hs2]
      cases pv
      case gdf pg =>
        cases sv
        case gdf sg =>
          simp only [getCrsAttr]
          by_cases hcl : sg.crs = pg.crs
          · rw [if_pos hcl]
            refine iff_of_false (by simp) ?_
            rintro ⟨pg2, sg2, hpp, hss, hne, -⟩
            simp only [Option.some.injEq, PyVal.gdf.injEq] at hpp hss
            subst hpp
            subst hss
            exact hne hcl
          · rw [if_neg hcl]
            cases hpc : pg.crs with
            | none =>
              simp only [hpc]
              refine iff_of_false (by simp) ?_
              rintro ⟨pg2, sg2, hpp, -, -, c, hc, -⟩
              simp only [Option.some.injEq, PyVal.gdf.injEq] at hpp
              subst hpp
              rw [hpc] at hc
              cases hc
            | some c =>
              simp only [hpc]
              cases hproj : c.is_projected with
              | true =>
                rw [if_pos rfl]
                exact iff_of_true rfl ⟨pg, sg, rfl, rfl, hcl, c, hpc, hproj⟩
              | false =>
                rw [if_neg (by simp)]
                refine iff_of_false (by simp) ?_
                rintro ⟨pg2, sg2, hpp, -, -, c2, hc2, hcp2⟩
                simp only [Option.some.injEq, PyVal.gdf.injEq] at hpp
                subst hpp
                rw [hpc] at hc2
                injection hc2 with h3
                subst h3
                simp [hproj] at hcp2
        all_goals
          refine iff_of_false (by simp [getCrsAttr]) ?_
          rintro ⟨pg2, sg2, -, hss, -, -⟩
          simp at hss
      all_goals
        refine iff_of_false (by simp) ?_
        rintro ⟨pg2, sg2, hpp, -, -, -⟩
        simp at hpp

/-- C6 witness: a globals mapping with a geographic source table and a
distinct projected reprojection passes the transformation check. -/
theorem C6_reprojection_witness :
    test_04_reproject_data (mkState gReproj) = .passed :=
  (C6_reprojection_check (mkState gReproj) gReproj rfl).mpr
    ⟨projGdf, tzGdf, rfl, rfl, by decide, epsg3857, rfl, rfl⟩

/-- C7: the compare_projections check can never pass, and whenever the
function name is bound in the globals mapping, the check escapes with the
AttributeError raised while building its own fixture, because the geopandas
module has no top-level box; the submitted function is never invoked, for
every possible continuation of the truncated remainder of the check. -/
theorem C7_compare_projections_bug :
    (∀ rest st, test_05_compare_projections rest st ≠ .passed) ∧
    (∀ rest st g v, st.globals = some g → lookupG g "compare_projections" = some v →
      test_05_compare_projections rest st =
        .errored (.attributeError "module geopandas has no attribute box")) := by
  constructor
  · intro rest st
    unfold test_05_compare_projections
    cases hg : st.globals with
    | none => simp
    | some g =>
      cases hv : lookupG g "compare_projections" with
      | none => simp [hv]
      | some v => simp [hv, gpdBoxAttr]
  · intro rest st g v hg hv
    simp [test_05_compare_projections, hg, hv, gpdBoxAttr]

/-- C7 witness: a correct submission binding compare_projections to a
function returning a dictionary still sees the check error out on the
fixture construction. -/
theorem C7_compare_projections_witness :
    test_05_compare_projections restPass (mkState gCompare) =
      .errored (.attributeError "module geopandas has no attribute box") :=
  C7_compare_projections_bug.2 restPass (mkState gCompare) gCompare
    (PyVal.func (fun _ => .ok (.pyDict []))) rfl rfl

/-- C8 counterexample: a globals mapping with tz_projected present and
tz_shapefile absent makes the transformation check escape with a KeyError
instead of reporting a check failure, refuting the claim that every
content-contract violation is reported as a failing check. -/
theorem C8_keyerror_counterexample :
    test_04_reproject_data (mkState gProjOnly) = .errored (.keyError "tz_shapefile") :=
  rfl

/-- C8 amended: contract violations guarded by assertions are reported as
individual check failures with messages naming the offending element, as the
missing-name and wrong-type cases of the data-load check show; but the
transformation check reads tz_shapefile by unguarded subscript, so with
tz_projected present and tz_shapefile absent it escapes with an uncaught
KeyError, which the runner records as an error rather than a failure. -/
theorem C8_contract_violations_amended :
    (∀ st g, st.globals = some g → lookupG g "tz_shapefile" = none →
      test_02_load_shapefile st = .failed "Tanzania shapefile variable tz_shapefile not found") ∧
    (∀ st g v, st.globals = some g → lookupG g "tz_shapefile" = some v →
      (∀ t, v ≠ PyVal.gdf t) →
      test_02_load_shapefile st = .failed "Tanzania shapefile should be a GeoDataFrame") ∧
    (∀ st g, st.globals = some g → (lookupG g "tz_projected").isSome = true →
      lookupG g "tz_shapefile" = none →
      test_04_reproject_data st = .errored (.keyError "tz_shapefile")) := by
  refine ⟨?_, ?_, ?_⟩
  · intro st g hg hk
    simp [test_02_load_shapefile, hg, hk]
  · intro st g v hg hk hne
    cases v with
    | gdf t => exact absurd rfl (hne t)
    | pyDict d => simp [test_02_load_shapefile, hg, hk]
    | pyInt n => simp [test_02_load_shapefile, hg, hk]
    | pyStr s2 => simp [test_02_load_shapefile, hg, hk]
    | crsObj c => simp [test_02_load_shapefile, hg, hk]
    | pyNone => simp [test_02_load_shapefile, hg, hk]
    | func fn => simp [test_02_load_shapefile, hg, hk]
    | otherVal t => simp [test_02_load_shapefile, hg, hk]
  · intro st g hg hproj hk
    simp [test_04_reproject_data, hg, hproj, hk]

/-- C8 witness: the amended statement instantiated at an empty globals
mapping, where the data-load check reports the missing name as a failure. -/
theorem C8_contract_violations_witness :
    test_02_load_shapefile (mkState []) =
      .failed "Tanzania shapefile variable tz_shapefile not found" :=
  C8_contract_violations_amended.1 (mkState []) [] rfl rfl

/-- C9: the pattern matches an import statement behind any run of leading
whitespace and captures only the leading word of a dotted module path, and
the check reads source text only, so an import nested in a never-executed
function body is still captured. -/
theorem C9_import_scan_textual (ws m : List Char)
    (hws : ∀ c ∈ ws, isPySpace c = true) (hm : m ≠ [])
    (hmw : ∀ c ∈ m, isWordChar c = true) :
    scanImports (ws ++ importKw ++ ' ' :: m) = [String.mk m] ∧
    "seaborn" ∈ importStatements nbNested ∧
    scanImports "import numpy.linalg as la".toList = ["numpy"] :=
  ⟨scanImports_ws_import ws m hws hm hmw, by decide, by decide⟩

set_option maxRecDepth 8192 in
/-- C9 witness: the statement instantiated at a two-space indent and the
word seaborn. -/
theorem C9_import_scan_textual_witness :
    scanImports ([' ', ' '] ++ importKw ++ ' ' :: ['s', 'e', 'a', 'b', 'o', 'r', 'n']) =
      [String.mk ['s', 'e', 'a', 'b', 'o', 'r', 'n']] ∧
    "seaborn" ∈ importStatements nbNested ∧
    scanImports "import numpy.linalg as la".toList = ["numpy"] :=
  C9_import_scan_textual [' ', ' '] ['s', 'e', 'a', 'b', 'o', 'r', 'n']
    (by decide) (by decide) (by decide)

/-- C10: rewriting the source of every non-code cell changes neither the
code-cell index, nor the extracted globals mapping, nor the captured import
names, and the code-cell index contains only code cells, so the content of
non-code cells cannot affect the outcome of any check. -/
theorem C10_noncode_inert (f : String → String) (nb : Notebook) (sem : CellSem) (g : Globals) :
    codeCells (mangle f nb) = codeCells nb ∧
    execCells sem (mangle f nb).cells g = execCells sem nb.cells g ∧
    importStatements (mangle f nb) = importStatements nb ∧
    ∀ p ∈ codeCells nb, p.2.cell_type = "code" := by
  refine ⟨codeCells_mangle f nb, execCells_mangle sem f nb.cells g,
    importStatements_mangle f nb, ?_⟩
  intro p hp
  have hx := (List.mem_filter.mp hp).2
  simpa using hx

/-- C10 witness: the statement instantiated at a mixed notebook whose prose
cell is rewritten wholesale. -/
theorem C10_noncode_inert_witness :
    codeCells (mangle (fun _ => "junk text") nbMixed) = codeCells nbMixed :=
  (C10_noncode_inert (fun _ => "junk text") nbMixed (fun _ g => (g, none)) []).1
